import Mathlib

/-!
Verification development for the wrapYield Bitcoin-side vault
(btc-vaultero and its python-api service layer).

The Python sources are shallowly embedded:

* Script elements are the values the code puts into Script([...]) lists:
  integers (the encoded relative-timelock operand) and strings (opcodes,
  x-only pubkey hex, preimage-hash hex).
* A bitcoinutils PublicKey is modelled by its compressed hex string;
  to_x_only_hex drops the two-character prefix, as the library does for
  compressed keys.
* External ScriptEngine operations (taproot address derivation, Schnorr
  signing, serialization to hex, control blocks) are modelled as free,
  injective constructions that record exactly the arguments the code
  passes, so two call sites produce equal values precisely when the code
  hands them equal inputs.  Their byte-level output is outside the
  repository and is not interpreted.
* Python assert statements raise AssertionError; they are modelled as an
  Except error carrying the assertion message.  BTC amounts (Python
  float/Decimal) are modelled as exact rationals; to_satoshis rounds the
  product with 10^8 to an integer as bitcoinutils does.
-/

namespace Vaultero

/-- Script element: the Python Script lists hold ints (the sequence operand
produced by Sequence.for_script) and strings (opcodes and hex pushes). -/
inductive SElem : Type
  | i (n : Int)
  | s (st : String)
deriving DecidableEq, Repr

/-- A leaf script is a list of script elements, as built by Script([...]). -/
abbrev Scr := List SElem

/-- Model of a bitcoinutils PublicKey: the compressed public-key hex string
it was constructed from. -/
structure PublicKey : Type where
  hex : String
deriving DecidableEq, Repr

/-- Model of PublicKey.to_x_only_hex: for a compressed key the x-only hex
is the hex string without its two-character parity prefix. -/
def PublicKey.to_x_only_hex (p : PublicKey) : String := p.hex.drop 2

/-- Translation of get_nums_key: the fixed BIP-341 NUMS key. -/
def get_nums_key : PublicKey :=
  ⟨"0250929b74c1a04954b78b4b60c595c211f8b853e6e84bfa2be95712a7b0dd59e6"⟩

/-- Model of Sequence(TYPE_RELATIVE_TIMELOCK, t).for_script(): for a
block-based relative timelock the operand pushed into the script is the
block count itself.  Any range checking done inside the external
bitcoinutils library is not part of this repository and is not modelled. -/
def seqForScript (t : Int) : SElem := .i t

/-- Exceptions raised by the embedded Python code: assert statements
(AssertionError with their message) and out-of-range list indexing. -/
inductive VaulteroError : Type
  | assertionError (msg : String)
  | indexError
deriving DecidableEq, Repr

/-- Decidable equality for results of the embedded fallible functions. -/
instance {ε α : Type} [DecidableEq ε] [DecidableEq α] : DecidableEq (Except ε α) :=
  fun x y =>
    match x, y with
    | .error a, .error b =>
      if h : a = b then isTrue (by rw [h])
      else isFalse (fun he => h (by cases he; rfl))
    | .ok a, .ok b =>
      if h : a = b then isTrue (by rw [h])
      else isFalse (fun he => h (by cases he; rfl))
    | .error _, .ok _ => isFalse (fun he => by cases he)
    | .ok _, .error _ => isFalse (fun he => by cases he)

/-- Character test used by the builders: membership in the literal string
of the Python expression, the sixteen lowercase hex digits. -/
def isLowerHexChar (c : Char) : Bool := "0123456789abcdef".toList.contains c

/-- The two assert conditions of the builders combined: length exactly 64
and every character a lowercase hex digit. -/
def validPreimageHash (h : String) : Bool :=
  (h.length == 64) && h.toList.all isLowerHexChar

/-- The CSV leaf built by both builders: sequence operand, OP_CHECKSEQUENCEVERIFY,
OP_DROP, the given key's x-only hex, OP_CHECKSIG. -/
def csv_script (pub : PublicKey) (timelock : Int) : Scr :=
  [seqForScript timelock,
   .s "OP_CHECKSEQUENCEVERIFY",
   .s "OP_DROP",
   .s pub.to_x_only_hex,
   .s "OP_CHECKSIG"]

/-- The hashlock plus 2-of-2 leaf of output 0 (spec leaf E1). -/
def hashlock_and_multisig_script (borrower_pub lender_pub : PublicKey)
    (preimage_hash : String) : Scr :=
  [.s "OP_SHA256",
   .s preimage_hash,
   .s "OP_EQUALVERIFY",
   .s lender_pub.to_x_only_hex,
   .s "OP_CHECKSIG",
   .s borrower_pub.to_x_only_hex,
   .s "OP_CHECKSIGADD",
   .s "OP_2",
   .s "OP_NUMEQUALVERIFY",
   .s "OP_TRUE"]

/-- The hashlock plus borrower-signature leaf of output 1 (spec leaf C1). -/
def hashlock_and_borrower_siglock_script (borrower_pub : PublicKey)
    (preimage_hash : String) : Scr :=
  [.s "OP_SHA256",
   .s preimage_hash,
   .s "OP_EQUALVERIFY",
   .s borrower_pub.to_x_only_hex,
   .s "OP_CHECKSIG"]

/-- Translation of get_leaf_scripts_output_0 from vaultero/utils.py: the two
asserts on the preimage hash, then the CSV escape leaf and the hashlock
plus multisig leaf, returned in that order. -/
def get_leaf_scripts_output_0 (borrower_pub lender_pub : PublicKey)
    (preimage_hash_borrower : String) (borrower_timelock : Int) :
    Except VaulteroError (List Scr) :=
  if ¬ (preimage_hash_borrower.length = 64) then
    .error (.assertionError "Preimage hash must be a 64-character SHA256 hash")
  else if ¬ (preimage_hash_borrower.toList.all isLowerHexChar = true) then
    .error (.assertionError "Preimage hash must contain only hexadecimal characters")
  else
    .ok [csv_script borrower_pub borrower_timelock,
         hashlock_and_multisig_script borrower_pub lender_pub preimage_hash_borrower]

/-- Translation of get_leaf_scripts_output_1 from vaultero/utils.py. -/
def get_leaf_scripts_output_1 (borrower_pub lender_pub : PublicKey)
    (preimage_hash_lender : String) (lender_timelock : Int) :
    Except VaulteroError (List Scr) :=
  if ¬ (preimage_hash_lender.length = 64) then
    .error (.assertionError "Preimage hash must be a 64-character SHA256 hash")
  else if ¬ (preimage_hash_lender.toList.all isLowerHexChar = true) then
    .error (.assertionError "Preimage hash must contain only hexadecimal characters")
  else
    .ok [csv_script lender_pub lender_timelock,
         hashlock_and_borrower_siglock_script borrower_pub preimage_hash_lender]

/-- Taproot address as derived by the external engine: the free record of
the internal key and the script tree handed to get_taproot_address. -/
structure TaprootAddress : Type where
  internalKey : PublicKey
  tree : List (List Scr)
deriving DecidableEq, Repr

/-- Model of key.get_taproot_address(tree). -/
def get_taproot_address (k : PublicKey) (tree : List (List Scr)) : TaprootAddress :=
  ⟨k, tree⟩

/-- Translation of get_nums_p2tr_addr_0: derive the leaves, shape the tree
as a single pair, use the NUMS key as internal key. -/
def get_nums_p2tr_addr_0 (borrower_pub lender_pub : PublicKey)
    (preimage_hash_borrower : String) (borrower_timelock : Int) :
    Except VaulteroError TaprootAddress :=
  match get_leaf_scripts_output_0 borrower_pub lender_pub preimage_hash_borrower borrower_timelock with
  | .error e => .error e
  | .ok scripts =>
    match scripts.get? 0, scripts.get? 1 with
    | some s0, some s1 => .ok (get_taproot_address get_nums_key [[s0, s1]])
    | _, _ => .error .indexError

/-- Translation of get_nums_p2tr_addr_1. -/
def get_nums_p2tr_addr_1 (borrower_pub lender_pub : PublicKey)
    (preimage_hash_lender : String) (lender_timelock : Int) :
    Except VaulteroError TaprootAddress :=
  match get_leaf_scripts_output_1 borrower_pub lender_pub preimage_hash_lender lender_timelock with
  | .error e => .error e
  | .ok scripts =>
    match scripts.get? 0, scripts.get? 1 with
    | some s0, some s1 => .ok (get_taproot_address get_nums_key [[s0, s1]])
    | _, _ => .error .indexError

/-- Script-pubkey of a transaction output: either the standard address of a
public key (pub.get_address().to_script_pub_key()) or the pay-to-taproot
script of a derived address (addr.to_script_pub_key()). -/
inductive Spk : Type
  | p2pkh (pub : PublicKey)
  | p2tr (addr : TaprootAddress)
deriving DecidableEq, Repr

/-- Transaction input, per bitcoinutils TxInput(txid, vout). -/
structure TxInput : Type where
  txid : String
  vout : Nat
deriving DecidableEq, Repr

/-- Transaction output, per bitcoinutils TxOutput(amount, script_pub_key);
the amount is in satoshis. -/
structure TxOutput : Type where
  amount : Int
  spk : Spk
deriving DecidableEq, Repr

/-- Transaction, per bitcoinutils Transaction(inputs, outputs, has_segwit);
witness stacks are lists of hex strings and start out empty. -/
structure Transaction : Type where
  inputs : List TxInput
  outputs : List TxOutput
  hasSegwit : Bool
  witnesses : List (List String)
deriving DecidableEq, Repr

/-- Model of bitcoinutils to_satoshis: the BTC amount (an exact rational
here) times 10^8, rounded to an integer. -/
def to_satoshis (q : ℚ) : Int := round (q * 100000000)

/-- Translation of create_collateral_lock_tx from vaultero/utils.py.  The
node proxy lookup proxy.gettxout(txid, vout) is replaced by its result,
the funding value of the escrow UTXO in BTC.  The assert on the input
amount runs first, then the collateral address is derived and the
one-input two-output unsigned transaction is assembled. -/
def create_collateral_lock_tx (input_amount : ℚ)
    (borrower_pub lender_pub : PublicKey)
    (preimage_hash_lender : String) (lender_timelock : Int)
    (txid : String) (vout : Nat)
    (orig_fee collateral_amount : ℚ) :
    Except VaulteroError Transaction :=
  if ¬ (collateral_amount + orig_fee < input_amount) then
    .error (.assertionError "Input amount is less than collateral amount + output orig fee")
  else
    match get_nums_p2tr_addr_1 borrower_pub lender_pub preimage_hash_lender lender_timelock with
    | .error e => .error e
    | .ok collateral_output_address =>
      let txin : TxInput := ⟨txid, vout⟩
      let txout1 : TxOutput := ⟨to_satoshis orig_fee, Spk.p2pkh lender_pub⟩
      let txout2 : TxOutput := ⟨to_satoshis collateral_amount, Spk.p2tr collateral_output_address⟩
      .ok ⟨[txin], [txout1, txout2], true, []⟩

/-- Translation of create_collateral_release_tx from vaultero/utils.py.
One input, one output of value to_satoshis(input) minus to_satoshis(fee),
paid to the borrower's or the lender's standard address. -/
def create_collateral_release_tx (input_amount : ℚ)
    (borrower_pub lender_pub : PublicKey)
    (txid : String) (vout : Nat)
    (tx_fee : ℚ) (release_to_borrower : Bool) :
    Except VaulteroError Transaction :=
  if ¬ (tx_fee < input_amount) then
    .error (.assertionError "Input amount is less than tx fee")
  else
    let txin : TxInput := ⟨txid, vout⟩
    let txout : TxOutput :=
      if release_to_borrower then
        ⟨to_satoshis input_amount - to_satoshis tx_fee, Spk.p2pkh borrower_pub⟩
      else
        ⟨to_satoshis input_amount - to_satoshis tx_fee, Spk.p2pkh lender_pub⟩
    .ok ⟨[txin], [txout], true, []⟩

/-- A script element that performs a signature check: OP_CHECKSIG or
OP_CHECKSIGADD. -/
def isSigCheckOp (e : SElem) : Bool :=
  e == .s "OP_CHECKSIG" || e == .s "OP_CHECKSIGADD"

/-- The hash check comes before every signature check: some position holds
OP_EQUALVERIFY and every signature-check opcode sits strictly after it. -/
def hashCheckPrecedesSigChecks (scr : Scr) : Prop :=
  ∃ k, scr.get? k = some (.s "OP_EQUALVERIFY") ∧
    ∀ j e, scr.get? j = some e → isSigCheckOp e = true → k < j

/-- Schnorr signature produced by PrivateKey.sign_taproot_input: modelled
as the free record of every argument the code passes (signing key, the
transaction, input index, the spent script-pubkeys and amounts, the
script-path flag, the tapleaf script, the tweak flag).  Two signatures are
equal exactly when the whole signing context is equal. -/
structure SchnorrSig : Type where
  signerWif : String
  tx : Transaction
  inputIndex : Nat
  utxoScripts : List Spk
  amounts : List Int
  scriptPath : Bool
  tapleafScript : Scr
  tweak : Bool
deriving DecidableEq, Repr

/-- Model of priv.sign_taproot_input(tx, idx, scripts, amounts,
script_path=True, tapleaf_script=s, tweak=False). -/
def sign_taproot_input (wif : String) (tx : Transaction) (idx : Nat)
    (utxoScripts : List Spk) (amounts : List Int) (tapleaf : Scr) : SchnorrSig :=
  ⟨wif, tx, idx, utxoScripts, amounts, true, tapleaf, false⟩

/-- Control block as assembled by ControlBlock(nums_key, tree, leaf_index,
is_odd=...): the free record of its arguments. -/
structure ControlBlockData : Type where
  internalKey : PublicKey
  tree : List (List Scr)
  leafIndex : Nat
  isOdd : Bool
deriving DecidableEq, Repr

/-- Serialization of one script element to its hex, abstracted as an
injective tagged rendering. -/
def encodeSElem : SElem → String
  | .i n => "i(" ++ toString n ++ ")"
  | .s st => "s(" ++ st ++ ")"

/-- Model of Script.to_hex: an injective serialization of the element list. -/
def encodeScr (scr : Scr) : String := String.join (scr.map encodeSElem)

/-- Rendering of a taproot address used inside other serializations. -/
def encodeAddr (a : TaprootAddress) : String :=
  "taddr(" ++ a.internalKey.hex ++ "|"
    ++ String.join (a.tree.map (fun lvl => String.join (lvl.map encodeScr))) ++ ")"

/-- Model of to_hex on a script-pubkey. -/
def encodeSpk : Spk → String
  | .p2pkh pk => "p2pkh(" ++ pk.hex ++ ")"
  | .p2tr a => "p2tr(" ++ encodeAddr a ++ ")"

/-- Rendering of a transaction input for serialization. -/
def encodeTxIn (i : TxInput) : String := "in(" ++ i.txid ++ "|" ++ toString i.vout ++ ")"

/-- Rendering of a transaction output for serialization. -/
def encodeTxOut (o : TxOutput) : String :=
  "out(" ++ toString o.amount ++ "|" ++ encodeSpk o.spk ++ ")"

/-- Model of Transaction.serialize() producing the raw hex. -/
def encodeTx (t : Transaction) : String :=
  "tx(" ++ String.join (t.inputs.map encodeTxIn) ++ "|"
    ++ String.join (t.outputs.map encodeTxOut) ++ "|"
    ++ cond t.hasSegwit "1" "0" ++ "|"
    ++ String.join (t.witnesses.map String.join) ++ ")"

/-- Model of the hex string a Schnorr signature serializes to. -/
def encodeSig (s : SchnorrSig) : String :=
  "sig(" ++ s.signerWif ++ "|" ++ encodeTx s.tx ++ "|" ++ toString s.inputIndex ++ "|"
    ++ String.join (s.utxoScripts.map encodeSpk) ++ "|"
    ++ String.join (s.amounts.map toString) ++ "|"
    ++ cond s.scriptPath "1" "0" ++ "|" ++ encodeScr s.tapleafScript ++ "|"
    ++ cond s.tweak "1" "0" ++ ")"

/-- Model of ControlBlock.to_hex. -/
def encodeCb (cb : ControlBlockData) : String :=
  "cb(" ++ cb.internalKey.hex ++ "|"
    ++ String.join (cb.tree.map (fun lvl => String.join (lvl.map encodeScr))) ++ "|"
    ++ toString cb.leafIndex ++ "|" ++ cond cb.isOdd "1" "0" ++ ")"

/-- Hex digit for the utf-8 hex rendering of a preimage string. -/
def hexDigit (n : Nat) : Char := if n < 10 then Char.ofNat (48 + n) else Char.ofNat (87 + n)

/-- Two-character lowercase hex rendering of one byte. -/
def byteToHex (b : UInt8) : String :=
  String.mk [hexDigit (b.toNat / 16), hexDigit (b.toNat % 16)]

/-- Hex of the utf-8 bytes of a string, as preimage.encode(utf-8).hex(). -/
def utf8Hex (s : String) : String := String.join (s.toUTF8.toList.map byteToHex)

/-- Translation of the preimage normalization in complete_lender_witness:
strings with a 0x prefix are stripped, anything else is utf-8 hex encoded. -/
def preimage_to_hex (p : String) : String :=
  if p.startsWith "0x" then p.drop 2 else utf8Hex p

/-- Request body for the collateral endpoints (models.CreateCollateralRequest).
The pydantic field constraints live in the API layer; here the record just
carries the primitive values the service reads. -/
structure CreateCollateralRequest : Type where
  loan_id : String
  escrow_txid : String
  escrow_vout : Nat
  borrower_pubkey : String
  lender_pubkey : String
  preimage_hash_borrower : String
  preimage_hash_lender : String
  borrower_timelock : Int
  lender_timelock : Int
  collateral_amount : ℚ
  origination_fee : Option ℚ
deriving DecidableEq, Repr

/-- The dictionary returned by VaulteroService._create_collateral_transaction_data. -/
structure TxData : Type where
  transaction : Transaction
  escrow_address : TaprootAddress
  collateral_address : TaprootAddress
  scripts : List Scr
  leaf_index : Nat
  tapleaf_script : Scr
  input_amount : ℚ
  collateral_amount_float : ℚ
  orig_fee_float : ℚ
  borrower_pub : PublicKey
  lender_pub : PublicKey
deriving DecidableEq, Repr

/-- Translation of VaulteroService._create_collateral_transaction_data.
The Bitcoin RPC lookup of the escrow output is replaced by its result,
the output value in BTC.  Key conversion, address and script derivation,
the hard-coded leaf index 1, and the unsigned one-input two-output
transaction follow the source line by line. -/
def _create_collateral_transaction_data (r : CreateCollateralRequest)
    (rpc_input_amount : ℚ) : Except VaulteroError TxData :=
  match get_nums_p2tr_addr_0 ⟨r.borrower_pubkey⟩ ⟨r.lender_pubkey⟩ r.preimage_hash_borrower r.borrower_timelock with
  | .error e => .error e
  | .ok escrow_address =>
  match get_nums_p2tr_addr_1 ⟨r.borrower_pubkey⟩ ⟨r.lender_pubkey⟩ r.preimage_hash_lender r.lender_timelock with
  | .error e => .error e
  | .ok collateral_address =>
  match get_leaf_scripts_output_0 ⟨r.borrower_pubkey⟩ ⟨r.lender_pubkey⟩ r.preimage_hash_borrower r.borrower_timelock with
  | .error e => .error e
  | .ok scripts =>
  match scripts.get? 1 with
  | none => .error .indexError
  | some tapleaf_script =>
    let collateral_amount_float : ℚ := r.collateral_amount
    let orig_fee_float : ℚ := match r.origination_fee with | none => 0 | some v => v
    let txin : TxInput := ⟨r.escrow_txid, r.escrow_vout⟩
    let txout1 : TxOutput := ⟨to_satoshis orig_fee_float, Spk.p2pkh ⟨r.lender_pubkey⟩⟩
    let txout2 : TxOutput := ⟨to_satoshis collateral_amount_float, Spk.p2tr collateral_address⟩
    let tx : Transaction := ⟨[txin], [txout1, txout2], true, []⟩
    .ok ⟨tx, escrow_address, collateral_address, scripts, 1, tapleaf_script,
         rpc_input_amount, collateral_amount_float, orig_fee_float,
         ⟨r.borrower_pubkey⟩, ⟨r.lender_pubkey⟩⟩

/-- Content of the borrower_signature JSON file written by
VaulteroService.generate_borrower_signature, field for field. -/
structure SignatureData : Type where
  sig_borrower : String
  txid : String
  vout : Nat
  tx_hex : Transaction
  input_amount : ℚ
  leaf_index : Nat
  escrow_address_script : String
  tapleaf_script_hex : String
  escrow_is_odd : Bool
  loan_id : String
  borrower_pubkey : String
  lender_pubkey : String
  preimage_hash_borrower : String
  borrower_timelock : Int
  collateral_amount : ℚ
  origination_fee : ℚ
deriving DecidableEq, Repr

/-- Translation of VaulteroService.generate_borrower_signature.  The WIF
decode of the borrower key is carried as the WIF string itself; the parity
bit of the escrow address (escrow_address.is_odd(), computed by the
external engine) is supplied as an oracle on addresses.  The transmitted
tx_hex is modelled by the transaction it deserializes back to.  The
function returns the JSON content it writes to disk. -/
def generate_borrower_signature (r : CreateCollateralRequest)
    (rpc_input_amount : ℚ) (borrower_private_key : String)
    (parity : TaprootAddress → Bool) : Except VaulteroError SignatureData :=
  match _create_collateral_transaction_data r rpc_input_amount with
  | .error e => .error e
  | .ok td =>
    let sig_borrower := sign_taproot_input borrower_private_key td.transaction 0
        [Spk.p2tr td.escrow_address] [to_satoshis td.input_amount] td.tapleaf_script
    .ok { sig_borrower := encodeSig sig_borrower
        , txid := r.escrow_txid
        , vout := r.escrow_vout
        , tx_hex := td.transaction
        , input_amount := td.input_amount
        , leaf_index := td.leaf_index
        , escrow_address_script := encodeSpk (Spk.p2tr td.escrow_address)
        , tapleaf_script_hex := encodeScr td.tapleaf_script
        , escrow_is_odd := parity td.escrow_address
        , loan_id := r.loan_id
        , borrower_pubkey := r.borrower_pubkey
        , lender_pubkey := r.lender_pubkey
        , preimage_hash_borrower := r.preimage_hash_borrower
        , borrower_timelock := r.borrower_timelock
        , collateral_amount := td.collateral_amount_float
        , origination_fee := td.orig_fee_float }

/-- Result of VaulteroService.complete_lender_witness before broadcast:
the transaction with its witness attached, the witness stack itself, and
the lender signature that was computed. -/
structure LenderCompletion : Type where
  finalTx : Transaction
  witnessStack : List String
  sigLender : SchnorrSig
deriving DecidableEq, Repr

/-- Translation of VaulteroService.complete_lender_witness.  It rebuilds
the keys from the bundle, re-derives the escrow address and leaf scripts
from the bundle's primitive parameters, signs the tapleaf selected by the
bundle's leaf_index, assembles the control block from the re-derived tree
and the bundle's parity bit, and builds the five-element witness whose
fourth element is the bundle's transmitted tapleaf_script_hex string.
Broadcast and block mining are outside the embedded computation. -/
def complete_lender_witness (sd : SignatureData) (lender_wif : String)
    (preimage : String) : Except VaulteroError LenderCompletion :=
  match get_nums_p2tr_addr_0 ⟨sd.borrower_pubkey⟩ ⟨sd.lender_pubkey⟩ sd.preimage_hash_borrower sd.borrower_timelock with
  | .error e => .error e
  | .ok escrow_address =>
  match get_leaf_scripts_output_0 ⟨sd.borrower_pubkey⟩ ⟨sd.lender_pubkey⟩ sd.preimage_hash_borrower sd.borrower_timelock with
  | .error e => .error e
  | .ok scripts =>
  match scripts.get? sd.leaf_index with
  | none => .error .indexError
  | some tapleaf_script =>
  match scripts.get? 0, scripts.get? 1 with
  | some s0, some s1 =>
    let sig_lender := sign_taproot_input lender_wif sd.tx_hex 0
        [Spk.p2tr escrow_address] [to_satoshis sd.input_amount] tapleaf_script
    let ctrl_block : ControlBlockData := ⟨get_nums_key, [[s0, s1]], sd.leaf_index, sd.escrow_is_odd⟩
    let preimage_hex := preimage_to_hex preimage
    let stack : List String :=
      [sd.sig_borrower, encodeSig sig_lender, preimage_hex,
       sd.tapleaf_script_hex, encodeCb ctrl_block]
    .ok ⟨{ sd.tx_hex with witnesses := [stack] }, stack, sig_lender⟩
  | _, _ => .error .indexError

/-- Agreement of two bundles on every field except the two transmitted
script strings escrow_address_script and tapleaf_script_hex. -/
def agreesOnPrimitives (a b : SignatureData) : Prop :=
  a.sig_borrower = b.sig_borrower ∧ a.txid = b.txid ∧ a.vout = b.vout
  ∧ a.tx_hex = b.tx_hex ∧ a.input_amount = b.input_amount
  ∧ a.leaf_index = b.leaf_index ∧ a.escrow_is_odd = b.escrow_is_odd
  ∧ a.loan_id = b.loan_id ∧ a.borrower_pubkey = b.borrower_pubkey
  ∧ a.lender_pubkey = b.lender_pubkey
  ∧ a.preimage_hash_borrower = b.preimage_hash_borrower
  ∧ a.borrower_timelock = b.borrower_timelock
  ∧ a.collateral_amount = b.collateral_amount
  ∧ a.origination_fee = b.origination_fee

/-- Replacement of the leaf-script element (position 3) of a witness stack
by a fixed placeholder, leaving every other element in place. -/
def scrubStack (ws : List String) : List String :=
  ws.take 3 ++ "SCRIPT" :: ws.drop 4

/-- A lender completion with the leaf-script element of every witness
stack scrubbed; everything else, the computed lender signature included,
is kept. -/
def scrubCompletion (lc : LenderCompletion) : LenderCompletion :=
  ⟨{ lc.finalTx with witnesses := lc.finalTx.witnesses.map scrubStack },
   scrubStack lc.witnessStack, lc.sigLender⟩

/-- Loan status values of vaultero/loan.py. -/
inductive LoanStatus : Type
  | PENDING | ACTIVE | LOAN_INIT_FAILED | REPAID | DEFAULTED | SEIZED | UNKNOWN
deriving DecidableEq, Repr

/-- Exceptions raised by the Loan methods: ValueError naming the attempted
action and the status it found. -/
inductive LoanError : Type
  | valueError (action : String) (st : LoanStatus)
deriving DecidableEq, Repr

/-- Loan dataclass of vaultero/loan.py, all fields. -/
structure Loan : Type where
  amount : ℚ
  interest_rate : ℚ
  origination_fee : ℚ
  duration : Int
  lender : PublicKey
  borrower : PublicKey
  preimageHash_borrower : String
  preimageHash_lender : String
  timelock_0 : Int
  timelock_1 : Int
  status : LoanStatus
  loan_id : String
deriving DecidableEq, Repr

/-- Translation of Loan.accept: the guard raises ValueError and leaves the
object untouched, otherwise the status moves PENDING to ACTIVE.  The
result is the object state after the call together with the raised
exception, if any. -/
def Loan.accept (l : Loan) : Loan × Option LoanError :=
  if l.status ≠ LoanStatus.PENDING then (l, some (.valueError "accept" l.status))
  else ({ l with status := LoanStatus.ACTIVE }, none)

/-- Translation of Loan.reject: PENDING to LOAN_INIT_FAILED, else ValueError. -/
def Loan.reject (l : Loan) : Loan × Option LoanError :=
  if l.status ≠ LoanStatus.PENDING then (l, some (.valueError "reject" l.status))
  else ({ l with status := LoanStatus.LOAN_INIT_FAILED }, none)

/-- Translation of Loan.complete: ACTIVE to REPAID, else ValueError. -/
def Loan.complete (l : Loan) : Loan × Option LoanError :=
  if l.status ≠ LoanStatus.ACTIVE then (l, some (.valueError "complete" l.status))
  else ({ l with status := LoanStatus.REPAID }, none)

end Vaultero

namespace Vaultero
namespace Flow

/-!
Information-flow view of generate_borrower_signature.  Every value that
reaches the exported JSON bundle is represented as a symbolic term over
the atoms available to that code path: the fields of the incoming request,
the borrower's WIF key, and the escrow output value read from the node.
The two protocol secrets are atoms of their own; the theorem for the
bundle checks they occur in no exported field.  Validation (the asserts of
the leaf builders) only inspects data and introduces none, so it is
dropped from this view.
-/

/-- Atoms: the inputs available to generate_borrower_signature, plus the
two protocol secrets, which are not among its inputs. -/
inductive Atom : Type
  | preimage_borrower | preimage_lender
  | loan_id | escrow_txid | escrow_vout
  | borrower_pubkey | lender_pubkey
  | preimage_hash_borrower | preimage_hash_lender
  | borrower_timelock | lender_timelock
  | collateral_amount | origination_fee
  | borrower_private_key
  | rpc_input_amount
deriving DecidableEq, Repr

/-- Symbolic data terms: atoms, literals, list structure, and one
constructor per operation the code applies on the way to the bundle. -/
inductive Data : Type
  | atom (a : Atom)
  | lit (s : String)
  | natLit (n : Nat)
  | nil
  | cons (hd tl : Data)
  | publicKey (hexStr : Data)
  | privateKeyFromWif (w : Data)
  | numsKey
  | xOnlyHex (pk : Data)
  | seqOperand (t : Data)
  | script (elems : Data)
  | taprootAddress (internalKey tree : Data)
  | toScriptPubKey (x : Data)
  | getAddressSpk (pk : Data)
  | toSatoshis (x : Data)
  | toFloat (x : Data)
  | orZero (x : Data)
  | txInput (txid vout : Data)
  | txOutput (amount spk : Data)
  | transaction (ins outs : Data)
  | serialize (tx : Data)
  | toHex (x : Data)
  | isOdd (addr : Data)
  | signTaprootInput (priv tx idx spks amounts tapleaf : Data)
deriving DecidableEq, Repr

/-- Occurrence of an atom anywhere inside a symbolic term. -/
def occursAtom (a : Atom) : Data → Bool
  | .atom b => a == b
  | .lit _ => false
  | .natLit _ => false
  | .nil => false
  | .numsKey => false
  | .cons hd tl => occursAtom a hd || occursAtom a tl
  | .publicKey x => occursAtom a x
  | .privateKeyFromWif x => occursAtom a x
  | .xOnlyHex x => occursAtom a x
  | .seqOperand x => occursAtom a x
  | .script x => occursAtom a x
  | .taprootAddress x y => occursAtom a x || occursAtom a y
  | .toScriptPubKey x => occursAtom a x
  | .getAddressSpk x => occursAtom a x
  | .toSatoshis x => occursAtom a x
  | .toFloat x => occursAtom a x
  | .orZero x => occursAtom a x
  | .txInput x y => occursAtom a x || occursAtom a y
  | .txOutput x y => occursAtom a x || occursAtom a y
  | .transaction x y => occursAtom a x || occursAtom a y
  | .serialize x => occursAtom a x
  | .toHex x => occursAtom a x
  | .isOdd x => occursAtom a x
  | .signTaprootInput p t i sp am tl =>
      occursAtom a p || occursAtom a t || occursAtom a i || occursAtom a sp
        || occursAtom a am || occursAtom a tl

/-- List of terms folded into the symbolic list structure. -/
def listD : List Data → Data
  | [] => .nil
  | d :: ds => .cons d (listD ds)

/-- Dataflow of PublicKey(request.borrower_pubkey). -/
def borrowerPubD : Data := .publicKey (.atom .borrower_pubkey)

/-- Dataflow of PublicKey(request.lender_pubkey). -/
def lenderPubD : Data := .publicKey (.atom .lender_pubkey)

/-- Dataflow of the CSV leaf of output 0 built from the request data. -/
def csvScriptD : Data :=
  .script (listD [.seqOperand (.atom .borrower_timelock),
                  .lit "OP_CHECKSEQUENCEVERIFY",
                  .lit "OP_DROP",
                  .xOnlyHex borrowerPubD,
                  .lit "OP_CHECKSIG"])

/-- Dataflow of the hashlock plus multisig leaf of output 0. -/
def hashlockMultisigD : Data :=
  .script (listD [.lit "OP_SHA256",
                  .atom .preimage_hash_borrower,
                  .lit "OP_EQUALVERIFY",
                  .xOnlyHex lenderPubD,
                  .lit "OP_CHECKSIG",
                  .xOnlyHex borrowerPubD,
                  .lit "OP_CHECKSIGADD",
                  .lit "OP_2",
                  .lit "OP_NUMEQUALVERIFY",
                  .lit "OP_TRUE"])

/-- Dataflow of the CSV leaf of output 1. -/
def csvScriptLenderD : Data :=
  .script (listD [.seqOperand (.atom .lender_timelock),
                  .lit "OP_CHECKSEQUENCEVERIFY",
                  .lit "OP_DROP",
                  .xOnlyHex lenderPubD,
                  .lit "OP_CHECKSIG"])

/-- Dataflow of the hashlock plus borrower-siglock leaf of output 1. -/
def hashlockSiglockD : Data :=
  .script (listD [.lit "OP_SHA256",
                  .atom .preimage_hash_lender,
                  .lit "OP_EQUALVERIFY",
                  .xOnlyHex borrowerPubD,
                  .lit "OP_CHECKSIG"])

/-- Dataflow of the escrow taproot address (get_nums_p2tr_addr_0). -/
def escrowAddrD : Data :=
  .taprootAddress .numsKey (listD [listD [csvScriptD, hashlockMultisigD]])

/-- Dataflow of the collateral taproot address (get_nums_p2tr_addr_1). -/
def collateralAddrD : Data :=
  .taprootAddress .numsKey (listD [listD [csvScriptLenderD, hashlockSiglockD]])

/-- Dataflow of float(request.collateral_amount). -/
def collateralAmountD : Data := .toFloat (.atom .collateral_amount)

/-- Dataflow of float(request.origination_fee or 0). -/
def origFeeD : Data := .toFloat (.orZero (.atom .origination_fee))

/-- Dataflow of the unsigned escrow-to-collateral transaction built in
_create_collateral_transaction_data. -/
def collateralTxD : Data :=
  .transaction
    (listD [.txInput (.atom .escrow_txid) (.atom .escrow_vout)])
    (listD [.txOutput (.toSatoshis origFeeD) (.getAddressSpk lenderPubD),
            .txOutput (.toSatoshis collateralAmountD) (.toScriptPubKey collateralAddrD)])

/-- Dataflow of the borrower's Schnorr signature over the tapleaf at
index 1 of output 0. -/
def sigBorrowerD : Data :=
  .signTaprootInput (.privateKeyFromWif (.atom .borrower_private_key))
    collateralTxD (.natLit 0)
    (listD [.toScriptPubKey escrowAddrD])
    (listD [.toSatoshis (.atom .rpc_input_amount)])
    hashlockMultisigD

/-- The signature_data dictionary written by generate_borrower_signature,
field name by field name, each carrying the symbolic term of the value the
source assigns to it. -/
def signatureDataFlow : List (String × Data) :=
  [("sig_borrower", sigBorrowerD),
   ("txid", .atom .escrow_txid),
   ("vout", .atom .escrow_vout),
   ("tx_hex", .serialize collateralTxD),
   ("input_amount", .toFloat (.atom .rpc_input_amount)),
   ("leaf_index", .natLit 1),
   ("escrow_address_script", .toHex (.toScriptPubKey escrowAddrD)),
   ("tapleaf_script_hex", .toHex hashlockMultisigD),
   ("escrow_is_odd", .isOdd escrowAddrD),
   ("loan_id", .atom .loan_id),
   ("borrower_pubkey", .atom .borrower_pubkey),
   ("lender_pubkey", .atom .lender_pubkey),
   ("preimage_hash_borrower", .atom .preimage_hash_borrower),
   ("borrower_timelock", .atom .borrower_timelock),
   ("collateral_amount", collateralAmountD),
   ("origination_fee", origFeeD)]

end Flow

/-! Shared sample values used by the closed witness statements. -/

/-- Sample borrower public key. -/
def pkB : PublicKey := ⟨"02bb"⟩

/-- Sample lender public key. -/
def pkL : PublicKey := ⟨"02cc"⟩

/-- Sample well-formed preimage hash: 64 lowercase hex characters. -/
def zeros64 : String :=
  "0000000000000000000000000000000000000000000000000000000000000000"

/-- Sample malformed-for-the-builders hash: 64 uppercase hex characters. -/
def uppers64 : String :=
  "AAAAAAAAAAAAAAAAAAAAAAAAAAAAAAAAAAAAAAAAAAAAAAAAAAAAAAAAAAAAAAAA"

/-- Another 64-character hexadecimal string with uppercase digits, used to
exhibit the builders rejecting a well-formed hex hash. -/
def effs64 : String :=
  "FFFFFFFFFFFFFFFFFFFFFFFFFFFFFFFFFFFFFFFFFFFFFFFFFFFFFFFFFFFFFFFF"

/-- Standard hexadecimal alphabet, both cases, as used by the Loan
dataclass validation. -/
def isHexChar (c : Char) : Bool := "0123456789abcdefABCDEF".toList.contains c

/-- Success check on an embedded fallible result. -/
def exceptIsOk {ε α : Type} : Except ε α → Bool
  | .ok _ => true
  | .error _ => false

/-- Sample loan in PENDING status for the closed Loan witness. -/
def loanSample : Loan :=
  ⟨1, 0, 0, 180, pkL, pkB, zeros64, zeros64, 144, 27150, LoanStatus.PENDING, "loan-1"⟩

/-- Sample escrow taproot address derived from the sample keys and hash. -/
def addr0Sample : TaprootAddress :=
  get_taproot_address get_nums_key
    [[csv_script pkB 144, hashlock_and_multisig_script pkB pkL zeros64]]

/-- Sample collateral taproot address. -/
def addr1Sample : TaprootAddress :=
  get_taproot_address get_nums_key
    [[csv_script pkL 27150, hashlock_and_borrower_siglock_script pkB zeros64]]

/-- Sample collateral request: sample keys, the all-zeros hashes, timelocks
144 and 27150, 0.49 BTC collateral, 0.01 BTC origination fee. -/
def reqSample : CreateCollateralRequest :=
  ⟨"loan-1", zeros64, 0, "02bb", "02cc", zeros64, zeros64, 144, 27150, 0.49, some 0.01⟩

/-- The unsigned escrow-to-collateral transaction for the sample request. -/
def txSample : Transaction :=
  ⟨[⟨zeros64, 0⟩],
   [⟨to_satoshis 0.01, Spk.p2pkh pkL⟩, ⟨to_satoshis 0.49, Spk.p2tr addr1Sample⟩],
   true, []⟩

/-- The transaction-data dictionary produced for the sample request with a
0.501 BTC escrow. -/
def tdSample : TxData :=
  ⟨txSample, addr0Sample, addr1Sample,
   [csv_script pkB 144, hashlock_and_multisig_script pkB pkL zeros64], 1,
   hashlock_and_multisig_script pkB pkL zeros64, 0.501, 0.49, 0.01, pkB, pkL⟩

/-- Sample borrower-signature bundle with well-formed primitive fields. -/
def sdSample : SignatureData :=
  { sig_borrower := "sigB"
  , txid := zeros64
  , vout := 0
  , tx_hex := ⟨[⟨zeros64, 0⟩], [⟨1000000, Spk.p2pkh pkL⟩], true, []⟩
  , input_amount := 0.501
  , leaf_index := 1
  , escrow_address_script := "addrscript"
  , tapleaf_script_hex := "aa"
  , escrow_is_odd := false
  , loan_id := "loan-1"
  , borrower_pubkey := "02bb"
  , lender_pubkey := "02cc"
  , preimage_hash_borrower := zeros64
  , borrower_timelock := 144
  , collateral_amount := 0.49
  , origination_fee := 0.01 }

/-- The sample bundle with only the transmitted leaf-script string changed. -/
def sdSampleB : SignatureData := { sdSample with tapleaf_script_hex := "bb" }

/-- The sample bundle carrying a leaf-script string that is the hex of
neither derived leaf. -/
def sdSampleC : SignatureData := { sdSample with tapleaf_script_hex := "deadbeef" }

/-- A string of length 64 cannot be one of the signature-check opcodes. -/
theorem not_sigcheck_of_len64 (h : String) (hlen : h.length = 64) :
    isSigCheckOp (SElem.s h) = false := by
  have h1 : h ≠ "OP_CHECKSIG" := by
    intro he; rw [he] at hlen; exact absurd hlen (by decide)
  have h2 : h ≠ "OP_CHECKSIGADD" := by
    intro he; rw [he] at hlen; exact absurd hlen (by decide)
  simp [isSigCheckOp, h1, h2]

/-- In the hashlock plus multisig leaf the OP_EQUALVERIFY of the hash check
sits strictly before every signature-check opcode. -/
theorem hashlock_multisig_hash_first (bp lp : PublicKey) (h : String)
    (hlen : h.length = 64) :
    hashCheckPrecedesSigChecks (hashlock_and_multisig_script bp lp h) := by
  refine ⟨2, rfl, ?_⟩
  intro j e hj hs
  match j with
  | 0 =>
    simp only [hashlock_and_multisig_script, List.get?, Option.some.injEq] at hj
    rw [← hj] at hs
    exact absurd hs (by decide)
  | 1 =>
    simp only [hashlock_and_multisig_script, List.get?, Option.some.injEq] at hj
    rw [← hj, not_sigcheck_of_len64 h hlen] at hs
    exact absurd hs (by simp)
  | 2 =>
    simp only [hashlock_and_multisig_script, List.get?, Option.some.injEq] at hj
    rw [← hj] at hs
    exact absurd hs (by decide)
  | (n + 3) => omega

/-- In the hashlock plus borrower-siglock leaf the OP_EQUALVERIFY of the
hash check sits strictly before every signature-check opcode. -/
theorem hashlock_siglock_hash_first (bp : PublicKey) (h : String)
    (hlen : h.length = 64) :
    hashCheckPrecedesSigChecks (hashlock_and_borrower_siglock_script bp h) := by
  refine ⟨2, rfl, ?_⟩
  intro j e hj hs
  match j with
  | 0 =>
    simp only [hashlock_and_borrower_siglock_script, List.get?, Option.some.injEq] at hj
    rw [← hj] at hs
    exact absurd hs (by decide)
  | 1 =>
    simp only [hashlock_and_borrower_siglock_script, List.get?, Option.some.injEq] at hj
    rw [← hj, not_sigcheck_of_len64 h hlen] at hs
    exact absurd hs (by simp)
  | 2 =>
    simp only [hashlock_and_borrower_siglock_script, List.get?, Option.some.injEq] at hj
    rw [← hj] at hs
    exact absurd hs (by decide)
  | (n + 3) => omega

/-- On a hash accepted by the asserts, the output-0 builder returns
exactly its two leaves. -/
theorem leaf_scripts_output_0_ok (bp lp : PublicKey) (h : String) (t : Int)
    (hv : validPreimageHash h = true) :
    get_leaf_scripts_output_0 bp lp h t =
      .ok [csv_script bp t, hashlock_and_multisig_script bp lp h] := by
  simp only [validPreimageHash, Bool.and_eq_true, beq_iff_eq] at hv
  unfold get_leaf_scripts_output_0
  rw [if_neg (not_not_intro hv.1), if_neg (not_not_intro hv.2)]

/-- On a hash accepted by the asserts, the output-1 builder returns
exactly its two leaves. -/
theorem leaf_scripts_output_1_ok (bp lp : PublicKey) (h : String) (t : Int)
    (hv : validPreimageHash h = true) :
    get_leaf_scripts_output_1 bp lp h t =
      .ok [csv_script lp t, hashlock_and_borrower_siglock_script bp h] := by
  simp only [validPreimageHash, Bool.and_eq_true, beq_iff_eq] at hv
  unfold get_leaf_scripts_output_1
  rw [if_neg (not_not_intro hv.1), if_neg (not_not_intro hv.2)]

/-- Case analysis of the output-0 builder: it either accepts the hash and
returns its two leaves, or rejects it with one of the two assertions. -/
theorem leaf0_cases (bp lp : PublicKey) (h : String) (t : Int) :
    (validPreimageHash h = true ∧ get_leaf_scripts_output_0 bp lp h t =
      .ok [csv_script bp t, hashlock_and_multisig_script bp lp h])
    ∨ (validPreimageHash h = false ∧ ∃ m, get_leaf_scripts_output_0 bp lp h t =
      .error (.assertionError m)) := by
  by_cases hv : validPreimageHash h = true
  · exact Or.inl ⟨hv, leaf_scripts_output_0_ok bp lp h t hv⟩
  · refine Or.inr ⟨by simpa using hv, ?_⟩
    unfold get_leaf_scripts_output_0
    by_cases hlen : h.length = 64
    · have hall : ¬ (h.toList.all isLowerHexChar = true) := by
        intro hall
        apply hv
        simp only [validPreimageHash, Bool.and_eq_true, beq_iff_eq]
        exact ⟨hlen, hall⟩
      exact ⟨_, by rw [if_neg (not_not_intro hlen), if_pos hall]⟩
    · exact ⟨_, by rw [if_pos hlen]⟩

/-- Case analysis of the output-1 builder. -/
theorem leaf1_cases (bp lp : PublicKey) (h : String) (t : Int) :
    (validPreimageHash h = true ∧ get_leaf_scripts_output_1 bp lp h t =
      .ok [csv_script lp t, hashlock_and_borrower_siglock_script bp h])
    ∨ (validPreimageHash h = false ∧ ∃ m, get_leaf_scripts_output_1 bp lp h t =
      .error (.assertionError m)) := by
  by_cases hv : validPreimageHash h = true
  · exact Or.inl ⟨hv, leaf_scripts_output_1_ok bp lp h t hv⟩
  · refine Or.inr ⟨by simpa using hv, ?_⟩
    unfold get_leaf_scripts_output_1
    by_cases hlen : h.length = 64
    · have hall : ¬ (h.toList.all isLowerHexChar = true) := by
        intro hall
        apply hv
        simp only [validPreimageHash, Bool.and_eq_true, beq_iff_eq]
        exact ⟨hlen, hall⟩
      exact ⟨_, by rw [if_neg (not_not_intro hlen), if_pos hall]⟩
    · exact ⟨_, by rw [if_pos hlen]⟩

/-- C1 counterexample: a string of 64 hexadecimal characters containing
uppercase digits is inside the claim's stated domain (every 64-hex-char
preimage hash), yet neither builder returns its two scripts there: both
raise the character-set assertion, because the source accepts the
lowercase alphabet only. -/
theorem leaf_scripts_content_fails_on_uppercase :
    (effs64.length = 64 ∧ effs64.toList.all isHexChar = true) ∧
    get_leaf_scripts_output_0 pkB pkL effs64 144 =
      .error (.assertionError "Preimage hash must contain only hexadecimal characters") ∧
    get_leaf_scripts_output_1 pkB pkL effs64 27150 =
      .error (.assertionError "Preimage hash must contain only hexadecimal characters") := by
  decide

/-- C1 (amended): for every pair of public keys, every preimage-hash
string the builders accept (exactly 64 lowercase hex characters; hashes
with uppercase hex digits are rejected instead) and every timelock,
get_leaf_scripts_output_0 returns exactly two scripts, index 0 the
borrower CSV escape and index 1 the lender-claim hashlock plus 2-of-2
leaf, and get_leaf_scripts_output_1 returns index 0 the lender CSV leaf
and index 1 the borrower-reclaim hashlock plus signature leaf, with the
hash check preceding every signature check in both hashlock leaves. -/
theorem leaf_scripts_content_spec (bp lp : PublicKey) (hb hl : String) (tb tl : Int)
    (hvb : validPreimageHash hb = true) (hvl : validPreimageHash hl = true) :
    get_leaf_scripts_output_0 bp lp hb tb =
      .ok [[seqForScript tb, .s "OP_CHECKSEQUENCEVERIFY", .s "OP_DROP",
            .s bp.to_x_only_hex, .s "OP_CHECKSIG"],
           [.s "OP_SHA256", .s hb, .s "OP_EQUALVERIFY",
            .s lp.to_x_only_hex, .s "OP_CHECKSIG",
            .s bp.to_x_only_hex, .s "OP_CHECKSIGADD",
            .s "OP_2", .s "OP_NUMEQUALVERIFY", .s "OP_TRUE"]]
    ∧ get_leaf_scripts_output_1 bp lp hl tl =
      .ok [[seqForScript tl, .s "OP_CHECKSEQUENCEVERIFY", .s "OP_DROP",
            .s lp.to_x_only_hex, .s "OP_CHECKSIG"],
           [.s "OP_SHA256", .s hl, .s "OP_EQUALVERIFY",
            .s bp.to_x_only_hex, .s "OP_CHECKSIG"]]
    ∧ hashCheckPrecedesSigChecks (hashlock_and_multisig_script bp lp hb)
    ∧ hashCheckPrecedesSigChecks (hashlock_and_borrower_siglock_script bp hl) := by
  have hlb : hb.length = 64 := by
    simp only [validPreimageHash, Bool.and_eq_true, beq_iff_eq] at hvb
    exact hvb.1
  have hll : hl.length = 64 := by
    simp only [validPreimageHash, Bool.and_eq_true, beq_iff_eq] at hvl
    exact hvl.1
  refine ⟨?_, ?_, hashlock_multisig_hash_first bp lp hb hlb,
          hashlock_siglock_hash_first bp hl hll⟩
  · rw [leaf_scripts_output_0_ok bp lp hb tb hvb]
    rfl
  · rw [leaf_scripts_output_1_ok bp lp hl tl hvl]
    rfl

/-- Closed witness for the leaf-script content theorem at sample keys, the
all-zeros hash and timelocks 144 and 27150. -/
theorem leaf_scripts_content_spec_witness :
    validPreimageHash zeros64 = true ∧
    (get_leaf_scripts_output_0 pkB pkL zeros64 144 =
      .ok [[seqForScript 144, .s "OP_CHECKSEQUENCEVERIFY", .s "OP_DROP",
            .s pkB.to_x_only_hex, .s "OP_CHECKSIG"],
           [.s "OP_SHA256", .s zeros64, .s "OP_EQUALVERIFY",
            .s pkL.to_x_only_hex, .s "OP_CHECKSIG",
            .s pkB.to_x_only_hex, .s "OP_CHECKSIGADD",
            .s "OP_2", .s "OP_NUMEQUALVERIFY", .s "OP_TRUE"]]
    ∧ get_leaf_scripts_output_1 pkB pkL zeros64 27150 =
      .ok [[seqForScript 27150, .s "OP_CHECKSEQUENCEVERIFY", .s "OP_DROP",
            .s pkL.to_x_only_hex, .s "OP_CHECKSIG"],
           [.s "OP_SHA256", .s zeros64, .s "OP_EQUALVERIFY",
            .s pkB.to_x_only_hex, .s "OP_CHECKSIG"]]
    ∧ hashCheckPrecedesSigChecks (hashlock_and_multisig_script pkB pkL zeros64)
    ∧ hashCheckPrecedesSigChecks (hashlock_and_borrower_siglock_script pkB zeros64)) :=
  ⟨by decide,
   leaf_scripts_content_spec pkB pkL zeros64 zeros64 144 27150 (by decide) (by decide)⟩

/-- C6 counterexample: a string of 64 uppercase characters consists of 64
hexadecimal characters, yet the builder rejects it with the assertion on
the character set, because the source checks membership in the lowercase
alphabet only. -/
theorem leaf_scripts_uppercase_rejected :
    (uppers64.length = 64 ∧ uppers64.toList.all isHexChar = true) ∧
    get_leaf_scripts_output_0 pkB pkL uppers64 144 =
      .error (.assertionError "Preimage hash must contain only hexadecimal characters") := by
  decide

/-- C6 (amended): leaf construction fails, producing no address, exactly
when the preimage-hash string is not 64 characters of the lowercase hex
alphabet, and succeeds for every string of exactly 64 lowercase hex
characters. -/
theorem leaf_scripts_validation_iff (bp lp : PublicKey) (h : String) (t : Int) :
    ((∃ e, get_leaf_scripts_output_0 bp lp h t = .error e) ↔ validPreimageHash h = false)
    ∧ ((∃ e, get_nums_p2tr_addr_0 bp lp h t = .error e) ↔ validPreimageHash h = false)
    ∧ ((∃ e, get_leaf_scripts_output_1 bp lp h t = .error e) ↔ validPreimageHash h = false)
    ∧ ((∃ e, get_nums_p2tr_addr_1 bp lp h t = .error e) ↔ validPreimageHash h = false) := by
  constructor
  · rcases leaf0_cases bp lp h t with ⟨hv, hok⟩ | ⟨hv, m, herr⟩
    · simp [hok, hv]
    · simp [herr, hv]
  constructor
  · rcases leaf0_cases bp lp h t with ⟨hv, hok⟩ | ⟨hv, m, herr⟩
    · unfold get_nums_p2tr_addr_0
      rw [hok]
      simp [hv]
    · unfold get_nums_p2tr_addr_0
      rw [herr]
      simp [hv]
  constructor
  · rcases leaf1_cases bp lp h t with ⟨hv, hok⟩ | ⟨hv, m, herr⟩
    · simp [hok, hv]
    · simp [herr, hv]
  · rcases leaf1_cases bp lp h t with ⟨hv, hok⟩ | ⟨hv, m, herr⟩
    · unfold get_nums_p2tr_addr_1
      rw [hok]
      simp [hv]
    · unfold get_nums_p2tr_addr_1
      rw [herr]
      simp [hv]

/-- Closed witness for the amended validation theorem: at the uppercase
sample hash every builder and address derivation fails. -/
theorem leaf_scripts_validation_iff_witness :
    ∃ e, get_leaf_scripts_output_0 pkB pkL uppers64 144 = .error e :=
  (leaf_scripts_validation_iff pkB pkL uppers64 144).1.mpr (by decide)

/-- C7: create_collateral_lock_tx fails with the insufficient-funds
assertion exactly when the escrow UTXO value is at most the collateral
amount plus the origination fee; otherwise it returns the unsigned
transaction with exactly one input (the escrow outpoint), exactly two
outputs (the origination fee to the lender's standard address, the
collateral amount to the derived collateral address), and no witness. -/
theorem create_collateral_lock_tx_spec (value : ℚ) (bp lp : PublicKey)
    (hl : String) (tl : Int) (txid : String) (vout : Nat)
    (orig_fee collateral_amount : ℚ)
    (hv : validPreimageHash hl = true) :
    (create_collateral_lock_tx value bp lp hl tl txid vout orig_fee collateral_amount =
        .error (.assertionError "Input amount is less than collateral amount + output orig fee")
      ↔ value ≤ collateral_amount + orig_fee)
    ∧ (collateral_amount + orig_fee < value →
        ∃ addr, get_nums_p2tr_addr_1 bp lp hl tl = .ok addr ∧
          create_collateral_lock_tx value bp lp hl tl txid vout orig_fee collateral_amount =
            .ok ⟨[⟨txid, vout⟩],
                 [⟨to_satoshis orig_fee, Spk.p2pkh lp⟩,
                  ⟨to_satoshis collateral_amount, Spk.p2tr addr⟩],
                 true, []⟩) := by
  have haddr : get_nums_p2tr_addr_1 bp lp hl tl =
      .ok (get_taproot_address get_nums_key
        [[csv_script lp tl, hashlock_and_borrower_siglock_script bp hl]]) := by
    unfold get_nums_p2tr_addr_1
    rw [leaf_scripts_output_1_ok bp lp hl tl hv]
    rfl
  constructor
  · constructor
    · intro hres
      by_contra hle
      push_neg at hle
      unfold create_collateral_lock_tx at hres
      rw [if_neg (not_not_intro hle), haddr] at hres
      exact absurd hres (by simp)
    · intro hle
      unfold create_collateral_lock_tx
      rw [if_pos (by exact not_lt_of_le hle)]
  · intro hlt
    refine ⟨_, haddr, ?_⟩
    unfold create_collateral_lock_tx
    rw [if_neg (not_not_intro hlt), haddr]

/-- Closed witness for the collateral-lock transaction theorem: a funded
escrow of 0.501 BTC against a 0.49 BTC collateral and 0.01 BTC fee. -/
theorem create_collateral_lock_tx_spec_witness :
    validPreimageHash zeros64 = true ∧
    ((create_collateral_lock_tx 0.501 pkB pkL zeros64 27150 zeros64 0 0.01 0.49 =
        .error (.assertionError "Input amount is less than collateral amount + output orig fee")
      ↔ (0.501 : ℚ) ≤ 0.49 + 0.01)
    ∧ ((0.49 : ℚ) + 0.01 < 0.501 →
        ∃ addr, get_nums_p2tr_addr_1 pkB pkL zeros64 27150 = .ok addr ∧
          create_collateral_lock_tx 0.501 pkB pkL zeros64 27150 zeros64 0 0.01 0.49 =
            .ok ⟨[⟨zeros64, 0⟩],
                 [⟨to_satoshis 0.01, Spk.p2pkh pkL⟩,
                  ⟨to_satoshis 0.49, Spk.p2tr addr⟩],
                 true, []⟩)) :=
  ⟨by decide,
   create_collateral_lock_tx_spec 0.501 pkB pkL zeros64 27150 zeros64 0 0.01 0.49 (by decide)⟩

/-- C8: create_collateral_release_tx fails with the fee assertion exactly
when the collateral input value is at most the fee; otherwise, for
whole-satoshi amounts i and f, it returns a one-input transaction with a
single output of exactly i minus f satoshis, paid to the borrower's
standard address when release_to_borrower is true and to the lender's
otherwise, with no witness. -/
theorem create_collateral_release_tx_spec (bp lp : PublicKey)
    (txid : String) (vout : Nat) (i f : Int) (release_to_borrower : Bool) :
    (create_collateral_release_tx ((i : ℚ) / 100000000) bp lp txid vout
        ((f : ℚ) / 100000000) release_to_borrower =
        .error (.assertionError "Input amount is less than tx fee")
      ↔ (i : ℚ) / 100000000 ≤ (f : ℚ) / 100000000)
    ∧ ((f : ℚ) / 100000000 < (i : ℚ) / 100000000 →
        create_collateral_release_tx ((i : ℚ) / 100000000) bp lp txid vout
          ((f : ℚ) / 100000000) release_to_borrower =
          .ok ⟨[⟨txid, vout⟩],
               [⟨i - f, Spk.p2pkh (if release_to_borrower then bp else lp)⟩],
               true, []⟩) := by
  have hsat : ∀ n : Int, to_satoshis ((n : ℚ) / 100000000) = n := by
    intro n
    unfold to_satoshis
    rw [div_mul_cancel₀]
    · exact round_intCast n
    · norm_num
  constructor
  · constructor
    · intro hres
      by_contra hle
      push_neg at hle
      unfold create_collateral_release_tx at hres
      rw [if_neg (not_not_intro hle)] at hres
      cases release_to_borrower <;> simp at hres
    · intro hle
      unfold create_collateral_release_tx
      rw [if_pos (by exact not_lt_of_le hle)]
  · intro hlt
    unfold create_collateral_release_tx
    rw [if_neg (not_not_intro hlt)]
    cases release_to_borrower <;> simp [hsat]

/-- Closed witness for the collateral-release theorem: 0.5 BTC in, 0.01
BTC fee, released to the borrower, paying exactly 49000000 satoshis. -/
theorem create_collateral_release_tx_spec_witness :
    create_collateral_release_tx (((50000000 : Int) : ℚ) / 100000000) pkB pkL zeros64 0
        (((1000000 : Int) : ℚ) / 100000000) true =
      .ok ⟨[⟨zeros64, 0⟩],
           [⟨(50000000 : Int) - 1000000, Spk.p2pkh (if true then pkB else pkL)⟩],
           true, []⟩ :=
  (create_collateral_release_tx_spec pkB pkL zeros64 0 50000000 1000000 true).2
    (by norm_num)

/-- C10: the three Loan transitions are guarded and leave the object
unchanged when the guard fails: accept moves PENDING to ACTIVE, reject
moves PENDING to LOAN_INIT_FAILED, complete moves ACTIVE to REPAID, and in
every other status each raises ValueError and returns the loan with every
field unchanged. -/
theorem loan_transitions_guarded (l : Loan) :
    ((l.status = LoanStatus.PENDING →
        l.accept = ({ l with status := LoanStatus.ACTIVE }, none))
      ∧ (l.status ≠ LoanStatus.PENDING →
        l.accept = (l, some (.valueError "accept" l.status))))
    ∧ ((l.status = LoanStatus.PENDING →
        l.reject = ({ l with status := LoanStatus.LOAN_INIT_FAILED }, none))
      ∧ (l.status ≠ LoanStatus.PENDING →
        l.reject = (l, some (.valueError "reject" l.status))))
    ∧ ((l.status = LoanStatus.ACTIVE →
        l.complete = ({ l with status := LoanStatus.REPAID }, none))
      ∧ (l.status ≠ LoanStatus.ACTIVE →
        l.complete = (l, some (.valueError "complete" l.status)))) := by
  refine ⟨⟨?_, ?_⟩, ⟨?_, ?_⟩, ⟨?_, ?_⟩⟩ <;> intro hs <;>
    simp [Loan.accept, Loan.reject, Loan.complete, hs]

/-- Closed witness for the Loan transition theorem: at a PENDING sample
loan, accept activates it and complete raises ValueError leaving it
unchanged. -/
theorem loan_transitions_guarded_witness :
    loanSample.accept = ({ loanSample with status := LoanStatus.ACTIVE }, none)
    ∧ loanSample.complete =
        (loanSample, some (.valueError "complete" loanSample.status)) :=
  ⟨((loan_transitions_guarded loanSample).1).1 (by decide),
   ((loan_transitions_guarded loanSample).2.2).2 (by decide)⟩

/-- C2: the signature_data bundle exported by generate_borrower_signature
consists of exactly the sixteen listed fields (partial signature,
reference transaction, txid and vout, input amount, leaf index, leaf
script, escrow script-pubkey, parity bit, and the primitive loan and key
parameters), and in the dataflow of every field neither protocol secret
(the borrower's or the lender's preimage) occurs: the function's inputs
are the request, the borrower key and the node-reported escrow value, and
no preimage atom reaches any exported value. -/
theorem borrower_bundle_no_preimage :
    Flow.signatureDataFlow.map Prod.fst =
      ["sig_borrower", "txid", "vout", "tx_hex", "input_amount", "leaf_index",
       "escrow_address_script", "tapleaf_script_hex", "escrow_is_odd", "loan_id",
       "borrower_pubkey", "lender_pubkey", "preimage_hash_borrower",
       "borrower_timelock", "collateral_amount", "origination_fee"]
    ∧ Flow.signatureDataFlow.all
        (fun kv => !(Flow.occursAtom Flow.Atom.preimage_borrower kv.2)
          && !(Flow.occursAtom Flow.Atom.preimage_lender kv.2)) = true := by
  constructor
  · rfl
  · decide

/-- C4: for every request on which the shared transaction-data helper
succeeds, generate_borrower_signature succeeds, the exported bundle
records leaf_index equal to 1, the helper's tapleaf is the script at index
1 of the derived leaf list, that script is the hashlock plus 2-of-2
multisig leaf E1 and not the CSV escape leaf at index 0, and the exported
borrower signature is the script-path signature over that tapleaf. -/
theorem borrower_signature_signs_leaf_one (r : CreateCollateralRequest)
    (rpcv : ℚ) (wif : String) (parity : TaprootAddress → Bool) (td : TxData)
    (hok : _create_collateral_transaction_data r rpcv = .ok td) :
    ∃ sd, generate_borrower_signature r rpcv wif parity = .ok sd
      ∧ sd.leaf_index = 1
      ∧ td.leaf_index = 1
      ∧ td.scripts.get? 1 = some td.tapleaf_script
      ∧ td.tapleaf_script =
          hashlock_and_multisig_script ⟨r.borrower_pubkey⟩ ⟨r.lender_pubkey⟩
            r.preimage_hash_borrower
      ∧ td.scripts.get? 0 =
          some (csv_script ⟨r.borrower_pubkey⟩ r.borrower_timelock)
      ∧ td.tapleaf_script ≠ csv_script ⟨r.borrower_pubkey⟩ r.borrower_timelock
      ∧ sd.sig_borrower =
          encodeSig (sign_taproot_input wif td.transaction 0
            [Spk.p2tr td.escrow_address] [to_satoshis td.input_amount]
            td.tapleaf_script) := by
  have hshape :
      td.leaf_index = 1
      ∧ td.scripts = [csv_script ⟨r.borrower_pubkey⟩ r.borrower_timelock,
          hashlock_and_multisig_script ⟨r.borrower_pubkey⟩ ⟨r.lender_pubkey⟩
            r.preimage_hash_borrower]
      ∧ td.tapleaf_script =
          hashlock_and_multisig_script ⟨r.borrower_pubkey⟩ ⟨r.lender_pubkey⟩
            r.preimage_hash_borrower := by
    unfold _create_collateral_transaction_data at hok
    rcases h0 : get_nums_p2tr_addr_0 ⟨r.borrower_pubkey⟩ ⟨r.lender_pubkey⟩
        r.preimage_hash_borrower r.borrower_timelock with e | a0
    · rw [h0] at hok; exact absurd hok (by simp)
    rcases h1 : get_nums_p2tr_addr_1 ⟨r.borrower_pubkey⟩ ⟨r.lender_pubkey⟩
        r.preimage_hash_lender r.lender_timelock with e | a1
    · rw [h0, h1] at hok; exact absurd hok (by simp)
    rcases leaf0_cases ⟨r.borrower_pubkey⟩ ⟨r.lender_pubkey⟩
        r.preimage_hash_borrower r.borrower_timelock with ⟨hv, hsc⟩ | ⟨hv, m, hsc⟩
    · rw [h0, h1, hsc] at hok
      simp only [List.get?] at hok
      injection hok with hok
      rw [← hok]
      exact ⟨rfl, rfl, rfl⟩
    · rw [h0, h1, hsc] at hok; exact absurd hok (by simp)
  have hgen : generate_borrower_signature r rpcv wif parity = .ok
      { sig_borrower := encodeSig (sign_taproot_input wif td.transaction 0
            [Spk.p2tr td.escrow_address] [to_satoshis td.input_amount] td.tapleaf_script)
      , txid := r.escrow_txid
      , vout := r.escrow_vout
      , tx_hex := td.transaction
      , input_amount := td.input_amount
      , leaf_index := td.leaf_index
      , escrow_address_script := encodeSpk (Spk.p2tr td.escrow_address)
      , tapleaf_script_hex := encodeScr td.tapleaf_script
      , escrow_is_odd := parity td.escrow_address
      , loan_id := r.loan_id
      , borrower_pubkey := r.borrower_pubkey
      , lender_pubkey := r.lender_pubkey
      , preimage_hash_borrower := r.preimage_hash_borrower
      , borrower_timelock := r.borrower_timelock
      , collateral_amount := td.collateral_amount_float
      , origination_fee := td.orig_fee_float } := by
    unfold generate_borrower_signature
    rw [hok]
  refine ⟨_, hgen, hshape.1, hshape.1, ?_, hshape.2.2, ?_, ?_, rfl⟩
  · rw [hshape.2.1, hshape.2.2]
    rfl
  · rw [hshape.2.1]
    rfl
  · rw [hshape.2.2]
    intro hcontra
    have hhead := congrArg (fun scr => scr.get? 0) hcontra
    simp [hashlock_and_multisig_script, csv_script, seqForScript] at hhead

/-- Closed witness for the leaf-index theorem at the sample request: the
helper succeeds with the sample transaction data and the exported bundle
records leaf index 1 over the E1 leaf. -/
theorem borrower_signature_signs_leaf_one_witness :
    ∃ sd, generate_borrower_signature reqSample 0.501 "wifB" (fun _ => false) = .ok sd
      ∧ sd.leaf_index = 1
      ∧ tdSample.leaf_index = 1
      ∧ tdSample.scripts.get? 1 = some tdSample.tapleaf_script
      ∧ tdSample.tapleaf_script =
          hashlock_and_multisig_script ⟨reqSample.borrower_pubkey⟩
            ⟨reqSample.lender_pubkey⟩ reqSample.preimage_hash_borrower
      ∧ tdSample.scripts.get? 0 =
          some (csv_script ⟨reqSample.borrower_pubkey⟩ reqSample.borrower_timelock)
      ∧ tdSample.tapleaf_script ≠
          csv_script ⟨reqSample.borrower_pubkey⟩ reqSample.borrower_timelock
      ∧ sd.sig_borrower =
          encodeSig (sign_taproot_input "wifB" tdSample.transaction 0
            [Spk.p2tr tdSample.escrow_address] [to_satoshis tdSample.input_amount]
            tdSample.tapleaf_script) :=
  borrower_signature_signs_leaf_one reqSample 0.501 "wifB" (fun _ => false)
    tdSample (by rfl)

/-- C3 counterexample: two bundles that agree on every primitive field and
differ only in the transmitted tapleaf_script_hex string produce different
results from complete_lender_witness, because the transmitted string is
copied verbatim into the assembled witness. -/
theorem lender_witness_reads_transmitted_script :
    agreesOnPrimitives sdSample sdSampleB
    ∧ sdSample.tapleaf_script_hex ≠ sdSampleB.tapleaf_script_hex
    ∧ complete_lender_witness sdSample "wifL" "0xab"
        ≠ complete_lender_witness sdSampleB "wifL" "0xab" := by
  refine ⟨⟨rfl, rfl, rfl, rfl, rfl, rfl, rfl, rfl, rfl, rfl, rfl, rfl, rfl, rfl⟩,
          by decide, ?_⟩
  intro heq
  have e1 : Except.map (fun lc : LenderCompletion => lc.witnessStack.get? 3)
      (complete_lender_witness sdSample "wifL" "0xab") = .ok (some "aa") := rfl
  have e2 : Except.map (fun lc : LenderCompletion => lc.witnessStack.get? 3)
      (complete_lender_witness sdSampleB "wifL" "0xab") = .ok (some "bb") := rfl
  rw [heq, e2] at e1
  exact absurd e1 (by decide)

/-- C3 (amended): for two bundles agreeing on the primitive fields, the
computed lender signature and the whole completion are identical except
for the witness element at position 3, which is copied verbatim from each
bundle's transmitted tapleaf_script_hex; the transmitted
escrow_address_script never influences anything. -/
theorem lender_witness_sighash_from_primitives (sd₁ sd₂ : SignatureData)
    (wif p : String) (h : agreesOnPrimitives sd₁ sd₂) :
    Except.map scrubCompletion (complete_lender_witness sd₁ wif p)
      = Except.map scrubCompletion (complete_lender_witness sd₂ wif p)
    ∧ (∀ lc, complete_lender_witness sd₁ wif p = .ok lc →
        lc.witnessStack.get? 3 = some sd₁.tapleaf_script_hex)
    ∧ (∀ lc, complete_lender_witness sd₂ wif p = .ok lc →
        lc.witnessStack.get? 3 = some sd₂.tapleaf_script_hex) := by
  obtain ⟨e1, e2, e3, e4, e5, e6, e7, e8, e9, e10, e11, e12, e13, e14⟩ := h
  by_cases hv : validPreimageHash sd₂.preimage_hash_borrower = true
  · have haddr : get_nums_p2tr_addr_0 ⟨sd₂.borrower_pubkey⟩ ⟨sd₂.lender_pubkey⟩
        sd₂.preimage_hash_borrower sd₂.borrower_timelock =
        .ok (get_taproot_address get_nums_key
          [[csv_script ⟨sd₂.borrower_pubkey⟩ sd₂.borrower_timelock,
            hashlock_and_multisig_script ⟨sd₂.borrower_pubkey⟩ ⟨sd₂.lender_pubkey⟩
              sd₂.preimage_hash_borrower]]) := by
      unfold get_nums_p2tr_addr_0
      rw [leaf_scripts_output_0_ok _ _ _ _ hv]
      rfl
    unfold complete_lender_witness
    rw [e1, e4, e5, e6, e7, e9, e10, e11, e12, haddr,
        leaf_scripts_output_0_ok _ _ _ _ hv]
    have hcase : sd₂.leaf_index = 0 ∨ sd₂.leaf_index = 1 ∨ 2 ≤ sd₂.leaf_index := by
      omega
    rcases hcase with hl | hl | hl
    · rw [hl]
      refine ⟨rfl, ?_, ?_⟩ <;> intro lc hlc <;>
        · injection hlc with hlc
          rw [← hlc]
          rfl
    · rw [hl]
      refine ⟨rfl, ?_, ?_⟩ <;> intro lc hlc <;>
        · injection hlc with hlc
          rw [← hlc]
          rfl
    · obtain ⟨n, hn⟩ : ∃ n, sd₂.leaf_index = n + 2 := ⟨sd₂.leaf_index - 2, by omega⟩
      rw [hn]
      refine ⟨rfl, ?_, ?_⟩ <;> intro lc hlc <;> exact Except.noConfusion hlc
  · rcases leaf0_cases ⟨sd₂.borrower_pubkey⟩ ⟨sd₂.lender_pubkey⟩
        sd₂.preimage_hash_borrower sd₂.borrower_timelock with ⟨hv', _⟩ | ⟨hv', m, hsc⟩
    · exact absurd hv' hv
    · have haddr : get_nums_p2tr_addr_0 ⟨sd₂.borrower_pubkey⟩ ⟨sd₂.lender_pubkey⟩
          sd₂.preimage_hash_borrower sd₂.borrower_timelock =
          .error (.assertionError m) := by
        unfold get_nums_p2tr_addr_0
        rw [hsc]
      unfold complete_lender_witness
      rw [e1, e4, e5, e6, e7, e9, e10, e11, e12, haddr]
      refine ⟨rfl, ?_, ?_⟩ <;> intro lc hlc <;> exact Except.noConfusion hlc

/-- Closed witness for the amended independence theorem at the two sample
bundles differing only in the transmitted leaf-script string. -/
theorem lender_witness_sighash_from_primitives_witness :
    Except.map scrubCompletion (complete_lender_witness sdSample "wifL" "0xab")
      = Except.map scrubCompletion (complete_lender_witness sdSampleB "wifL" "0xab")
    ∧ (∀ lc, complete_lender_witness sdSample "wifL" "0xab" = .ok lc →
        lc.witnessStack.get? 3 = some sdSample.tapleaf_script_hex)
    ∧ (∀ lc, complete_lender_witness sdSampleB "wifL" "0xab" = .ok lc →
        lc.witnessStack.get? 3 = some sdSampleB.tapleaf_script_hex) :=
  lender_witness_sighash_from_primitives sdSample sdSampleB "wifL" "0xab"
    ⟨rfl, rfl, rfl, rfl, rfl, rfl, rfl, rfl, rfl, rfl, rfl, rfl, rfl, rfl⟩

/-- C9 counterexample: a bundle whose transmitted leaf script is the hex
of neither leaf of the tree derived from its primitive parameters is
still completed without any error: no script-mismatch check exists, the
mismatched script is embedded in the witness. -/
theorem lender_witness_no_mismatch_check :
    (∀ scr ∈ [csv_script pkB 144, hashlock_and_multisig_script pkB pkL zeros64],
      encodeScr scr ≠ sdSampleC.tapleaf_script_hex)
    ∧ exceptIsOk (complete_lender_witness sdSampleC "wifL" "0xab") = true := by
  decide

/-- C9 (amended): complete_lender_witness performs no membership check of
the supplied leaf script: whenever the bundle's primitive parameters are
well formed and its leaf index selects one of the two derived leaves, it
returns a completed witness and copies the supplied leaf-script string
verbatim into witness position 3, whether or not that string belongs to
the derived tree. -/
theorem lender_witness_accepts_any_supplied_script (sd : SignatureData)
    (wif p : String) (hv : validPreimageHash sd.preimage_hash_borrower = true)
    (hli : sd.leaf_index < 2) :
    ∃ lc, complete_lender_witness sd wif p = .ok lc
      ∧ lc.witnessStack.get? 3 = some sd.tapleaf_script_hex := by
  have h0 : get_nums_p2tr_addr_0 ⟨sd.borrower_pubkey⟩ ⟨sd.lender_pubkey⟩
      sd.preimage_hash_borrower sd.borrower_timelock =
      .ok (get_taproot_address get_nums_key
        [[csv_script ⟨sd.borrower_pubkey⟩ sd.borrower_timelock,
          hashlock_and_multisig_script ⟨sd.borrower_pubkey⟩ ⟨sd.lender_pubkey⟩
            sd.preimage_hash_borrower]]) := by
    unfold get_nums_p2tr_addr_0
    rw [leaf_scripts_output_0_ok _ _ _ _ hv]
    rfl
  unfold complete_lender_witness
  rw [h0, leaf_scripts_output_0_ok _ _ _ _ hv]
  have hcase : sd.leaf_index = 0 ∨ sd.leaf_index = 1 := by omega
  rcases hcase with hl | hl <;> rw [hl] <;> exact ⟨_, rfl, rfl⟩

/-- Closed witness for the no-membership-check theorem at the sample
bundle with a mismatched leaf-script string. -/
theorem lender_witness_accepts_any_supplied_script_witness :
    ∃ lc, complete_lender_witness sdSampleC "wifL" "0xab" = .ok lc
      ∧ lc.witnessStack.get? 3 = some sdSampleC.tapleaf_script_hex :=
  lender_witness_accepts_any_supplied_script sdSampleC "wifL" "0xab"
    (by decide) (by decide)

end Vaultero
